import Mathlib

/-!
Verification development for the Naukri job-scraper script
(source file src/unnamed/part_002, function scrapeNaukriJobs and its helpers).

The script drives a browser through paginated search-result pages, extracts a
JobRecord per listing card, classifies the application pathway, deduplicates
against a known-URL set seeded from the document store, and accepts records
into an output batch subject to per-category limits.

Modelling conventions:
  * Browser/DOM nondeterminism (which selectors match, what text they yield,
    which errors are thrown) is supplied by explicit environment data
    (Card, PageResult, RunEnv).  Every control decision the script makes on
    that data is translated directly from the source.
  * JS string truthiness is modelled as comparison with the empty string.
  * The JS Set of scraped URLs is modelled as a list with membership.
  * Timestamps (Scraped Date) and log output are not modelled.
-/

namespace NaukriScraper

/-- Whether the second character list is a prefix of the first. -/
def startsWithList : List Char → List Char → Bool
  | _, [] => true
  | [], _ :: _ => false
  | c :: cs, p :: ps => c == p && startsWithList cs ps

/-- Whether the second character list occurs inside the first. -/
def containsSub : List Char → List Char → Bool
  | [], p => startsWithList [] p
  | c :: tl, p => startsWithList (c :: tl) p || containsSub tl p

/-- JS String.prototype.includes: substring containment test. -/
def includes (s pattern : String) : Bool :=
  containsSub s.data pattern.data

/-- Application pathway of a posting: data model field applicationType.
The script represents it by the strings "Internal" / "External"; "Unknown"
never appears in part_002 but is part of the declared enum. -/
inductive ApplicationType where
  | internal
  | external
  | unknown
  deriving DecidableEq, Repr

/-- The per-job output document built at part_002 lines 1468-1483
(field names follow the JS object keys). -/
structure JobData where
  jobTitle : String
  companyName : String
  location : String
  experienceRequired : String
  salary : String
  applicationType : ApplicationType
  jobUrl : String
  skills : String
  jobDescription : String
  searchQuery : String
  searchLocation : String
  searchExperience : String
  deriving DecidableEq, Repr

/-- Run configuration (part_002 lines 28-35): command-line/env parameters. -/
structure Config where
  email : String
  password : String
  query : String
  location : String
  experience : String
  internalLimit : Nat
  externalLimit : Nat
  maxPages : Nat
  deriving DecidableEq, Repr

/-- Observable outcome of processing one listing card: the values the selector
cascades of part_002 lines 1109-1277 resolve, plus the detail-page data of
lines 1280-1445.  Fields record what the browser yields; the control flow
acting on them is in processCard/mkJobData. -/
structure Card where
  /-- href resolved from the title-link cascade (lines 1133-1150); none when
  no selector yields a URL, in which case the card is skipped (line 1153). -/
  jobUrl : Option String
  /-- title text from the same cascade, default "Not available" (line 1110). -/
  jobTitle : String
  /-- company cascade result, default "Not available" (lines 1168-1179). -/
  companyName : String
  /-- location cascade result; the search location is the default
  (lines 1113-1114 and 1183-1205). -/
  location : String
  /-- experience cascade result, default "Not specified" (lines 1208-1221). -/
  experience : String
  /-- salary cascade result, default "Not disclosed" (lines 1224-1237). -/
  salary : String
  /-- skills after the card cascade and the detail-page merge
  (lines 1240-1262 and 1334-1357). -/
  skills : String
  /-- description snippet from the card cascade, default "Not available"
  (lines 1265-1276). -/
  cardDescription : String
  /-- detail-page description candidates, one per selector of lines 1306-1315,
  in cascade order: none when the selector times out, some t when the located
  element yields text t (via safeGetText with default ""). -/
  detailDescCandidates : List (Option String)
  /-- whether a displayed "apply on company site" control was found by the
  cascade of lines 1364-1393. -/
  externalApplyVisible : Bool
  /-- whether a displayed standard Apply control was found by the cascade of
  lines 1401-1421 (only affects a logged warning, line 1425). -/
  standardApplyVisible : Bool
  /-- message of an exception thrown while processing this card, if any
  (caught at line 1522; none when processing completes). -/
  cardError : Option String
  deriving DecidableEq, Repr

/-- Detail-page description resolution (part_002 lines 1316-1331): starting
from the card snippet, take the first candidate whose text is truthy and
longer than the current value by more than 20 characters; otherwise keep
the snippet. -/
def pickDetailedDescription (detailedDescription : String) :
    List (Option String) → String
  | [] => detailedDescription
  | none :: rest => pickDetailedDescription detailedDescription rest
  | some detailText :: rest =>
      if detailText ≠ "" ∧ detailedDescription.length + 20 < detailText.length then
        detailText
      else
        pickDetailedDescription detailedDescription rest

set_option linter.unusedVariables false in
/-- Application-type classification (part_002 lines 1360-1432): reset to
Internal, switch to External exactly when a displayed external-apply control
is found; a missing standard Apply control only logs a warning and keeps
Internal (lines 1422-1426). -/
def classifyApplicationType (externalApplyVisible standardApplyVisible : Bool) :
    ApplicationType :=
  if externalApplyVisible then ApplicationType.external else ApplicationType.internal

/-- Mutable run bookkeeping of scrapeNaukriJobs (part_002 lines 843-848). -/
structure ScrapeState where
  jobsToSave : List JobData
  internalCount : Nat
  externalCount : Nat
  newJobsCount : Nat
  /-- scrapedUrls: the known-URL set (JS Set), seeded from the database
  (lines 878-886) and grown at acceptance (lines 1492 and 1504). -/
  scrapedUrls : List String
  deriving DecidableEq, Repr

/-- The jobData object construction (part_002 lines 1468-1483), given the
resolved card data and its URL. -/
def mkJobData (cfg : Config) (card : Card) (jobUrl : String) : JobData :=
  let jobDescription := pickDetailedDescription card.cardDescription card.detailDescCandidates
  { jobTitle := card.jobTitle
    companyName := card.companyName
    location := card.location
    experienceRequired := card.experience
    salary := card.salary
    applicationType := classifyApplicationType card.externalApplyVisible card.standardApplyVisible
    jobUrl := jobUrl
    skills := if card.skills = "" then "Not available" else card.skills
    jobDescription := if jobDescription = "" then "Not available" else jobDescription
    searchQuery := cfg.query
    searchLocation := cfg.location
    searchExperience := cfg.experience }

/-- Acceptance of a record into the batch (part_002 lines 1486-1511): push
and bump the matching category counter only when that counter is strictly
below its limit; otherwise the record is dropped. -/
def addJobToSaveList (cfg : Config) (s : ScrapeState) (jobData : JobData)
    (jobUrl : String) : ScrapeState :=
  if jobData.applicationType = ApplicationType.internal ∧
      s.internalCount < cfg.internalLimit then
    { s with jobsToSave := s.jobsToSave ++ [jobData]
             scrapedUrls := jobUrl :: s.scrapedUrls
             internalCount := s.internalCount + 1
             newJobsCount := s.newJobsCount + 1 }
  else if jobData.applicationType = ApplicationType.external ∧
      s.externalCount < cfg.externalLimit then
    { s with jobsToSave := s.jobsToSave ++ [jobData]
             scrapedUrls := jobUrl :: s.scrapedUrls
             externalCount := s.externalCount + 1
             newJobsCount := s.newJobsCount + 1 }
  else s

/-- One iteration of the card loop (part_002 lines 1109-1544).  Returns the
new state and whether the card loop must be aborted for this page (the
"Failed to switch back" break of lines 1538-1541).  Order of checks follows
the source: missing URL skip (1153), duplicate skip (1157), exception skip
(1522), acceptance (1486). -/
def processCard (cfg : Config) (s : ScrapeState) (card : Card) :
    ScrapeState × Bool :=
  match card.jobUrl with
  | none => (s, false)
  | some jobUrl =>
      if jobUrl ∈ s.scrapedUrls then (s, false)
      else
        match card.cardError with
        | some message => (s, includes message "Failed to switch back")
        | none => (addJobToSaveList cfg s (mkJobData cfg card jobUrl) jobUrl, false)

/-- The card loop of one page (part_002 lines 1099-1546): before each card
both limits are checked (lines 1101-1107) and the loop breaks when both are
reached; a window-switch failure breaks the loop as well. -/
def processCards (cfg : Config) (s : ScrapeState) : List Card → ScrapeState
  | [] => s
  | card :: rest =>
      if cfg.internalLimit ≤ s.internalCount ∧ cfg.externalLimit ≤ s.externalCount then
        s
      else
        match processCard cfg s card with
        | (s2, true) => s2
        | (s2, false) => processCards cfg s2 rest

/-- JS String.prototype.toLowerCase (ASCII case folding, character-wise). -/
def toLowerStr (s : String) : String :=
  String.mk (s.data.map Char.toLower)

/-- JS regex replace of /\s+/g by "-": every maximal run of whitespace
becomes a single hyphen.  The Bool argument records whether the previous
character was whitespace. -/
def collapseWhitespace : Bool → List Char → List Char
  | _, [] => []
  | prevWs, c :: cs =>
      if c.isWhitespace then
        (if prevWs then [] else ['-']) ++ collapseWhitespace true cs
      else
        c :: collapseWhitespace false cs

/-- Term normalization of part_002 lines 931-932: lower-case, whitespace
runs replaced by hyphens. -/
def formatTerm (s : String) : String :=
  String.mk (collapseWhitespace false (toLowerStr s).data)

/-- Whether the experience filter is appended to the base search URL
(part_002 line 936: EXPERIENCE truthy and not "0"). -/
def experienceFilterPresent (experience : String) : Bool :=
  experience != "" && experience != "0"

/-- searchUrlBase (part_002 lines 934-938). -/
def searchUrlBase (cfg : Config) : String :=
  let base := "https://www.naukri.com/" ++ formatTerm cfg.query ++ "-jobs-in-"
      ++ formatTerm cfg.location
  if experienceFilterPresent cfg.experience then
    base ++ "?experience=" ++ cfg.experience
  else
    base

/-- searchUrlParams (part_002 lines 935-941): separator used for the
page-number parameter. -/
def searchUrlParams (cfg : Config) : String :=
  if experienceFilterPresent cfg.experience then "&" else "?"

/-- currentPageUrl (part_002 lines 953-955): page 1 uses the bare base URL,
later pages append the pageNo parameter with the chosen separator. -/
def currentPageUrl (cfg : Config) (page : Nat) : String :=
  searchUrlBase cfg ++
    (if 1 < page then searchUrlParams cfg ++ "pageNo=" ++ toString page else "")

/-- Result of one search-result page, as the browser presents it to the page
loop body (part_002 lines 959-1546). -/
inductive PageResult where
  /-- A result container (or the direct-card fallback of lines 997-1016) was
  located and the card cascade of lines 1045-1065 yielded this card list
  (possibly empty).  noResultsConfirmed is the outcome of the page-1
  no-results recheck of lines 1076-1093, consulted only when the list is
  empty on page 1. -/
  | cards (cards : List Card) (noResultsConfirmed : Bool)
  /-- Neither a container nor any direct card was found (line 1018):
  the page source is then inspected for CAPTCHA and no-results markers
  (lines 1022-1031).  noResultsConfirmed as above (the fall-through on
  page 1 reaches the same recheck with an empty card list). -/
  | nothingFound (pageSource : String) (noResultsConfirmed : Bool)
  /-- The page body threw (navigation, sleeps): caught at line 1550 with
  this TimeoutError flag and message. -/
  | pageError (isTimeoutError : Bool) (message : String)
  deriving Repr

/-- Outcome of a call to loginToNaukri: the returned Bool plus the list of
URLs the attempt navigated to (driver.get calls), in order. -/
structure LoginOutcome where
  result : Bool
  navigations : List String
  deriving DecidableEq, Repr

/-- loginToNaukri (part_002 lines 329-604).  The guard of lines 330-333
returns false before any navigation when either credential is empty
(JS falsiness of a string).  Otherwise the first action is
driver.get of the login entry point (line 339); everything after that
first navigation depends on the site and is supplied by rest. -/
def loginToNaukri (email password : String) (rest : LoginOutcome) : LoginOutcome :=
  if email = "" || password = "" then
    { result := false, navigations := [] }
  else
    { rest with navigations := "https://www.naukri.com/nlogin/login" :: rest.navigations }

/-- Environment of one run: everything the browser and site decide. -/
structure RunEnv where
  /-- result of tryRestoreCookies (part_002 line 897). -/
  cookiesRestored : Bool
  /-- result of checkIfLoggedIn after cookie restoration (line 898). -/
  loggedInViaCookies : Bool
  /-- behaviour of a login attempt after its first navigation. -/
  loginRest : LoginOutcome
  /-- whether initializeDriver (part_002 lines 704-814) succeeds within its
  MAX_RETRIES attempts when the coordinator reinitializes after a failure on
  the given page; when it does not, initializeDriver throws and the catch at
  lines 1587-1591 rethrows, aborting the run. -/
  reinitSucceeds : Nat → Bool
  /-- what each search-result page yields to the loop body. -/
  pages : Nat → PageResult

/-- Login/session phase of scrapeNaukriJobs (part_002 lines 896-926). -/
def loginPhase (cfg : Config) (env : RunEnv) : Bool :=
  let isLoggedIn := if env.cookiesRestored then env.loggedInViaCookies else false
  if !isLoggedIn && cfg.email != "" && cfg.password != "" then
    (loginToNaukri cfg.email cfg.password env.loginRest).result
  else
    isLoggedIn

/-- Classification of a page-level failure by the catch block of part_002
lines 1550-1596: the TimeoutError instance check comes first, then the
session-death keyword test on the message, then the CAPTCHA test. -/
inductive PageErrorClass where
  | timeout
  | sessionLost
  | captchaDetected
  | other
  deriving DecidableEq, Repr

/-- classifyPageError (part_002 lines 1554-1596). -/
def classifyPageError (isTimeoutError : Bool) (message : String) : PageErrorClass :=
  if isTimeoutError then
    PageErrorClass.timeout
  else if includes message "session" || includes message "crashed"
      || includes message "disconnected" || includes message "target closed" then
    PageErrorClass.sessionLost
  else if includes message "CAPTCHA" then
    PageErrorClass.captchaDetected
  else
    PageErrorClass.other

/-- Whole-run bookkeeping: the ScrapeState plus the loop variable page and
an audit trail of observable actions (fetches, driver reinitializations,
re-login attempts, the CAPTCHA stop). -/
structure RunState where
  state : ScrapeState
  page : Nat
  /-- page numbers passed to driver.get by the loop (line 960), in order. -/
  fetchedPages : List Nat
  /-- number of completed driver teardown/reinitialization cycles
  (lines 1567-1574). -/
  reinitCount : Nat
  /-- number of re-login attempts after a successful reinitialization
  (line 1577; the re-login only runs when initializeDriver returned). -/
  reloginAttempts : Nat
  /-- whether the loop was exited through the CAPTCHA branch (line 1595). -/
  stoppedByCaptcha : Bool
  /-- whether the loop was exited by the rethrown reinitialization failure
  (line 1591), which propagates to the outer catch (lines 1675-1711: the
  run aborts; the collected partial results are still saved there). -/
  aborted : Bool
  deriving DecidableEq, Repr

/-- The page loop of scrapeNaukriJobs (part_002 lines 944-1607), as a
fuel-indexed structural recursion.  One unit of fuel is one loop iteration;
the caller passes maxPages + 1 which the loop can never exhaust because
page starts at 1 and increases by exactly 1 per iteration.  Stop conditions
checked before the fetch: the while condition page <= maxPages (line 944)
and the both-limits test (lines 945-951).  The error branches follow the
catch block: sessionLost tears the driver down and reinitializes it — when
initializeDriver succeeds the loop re-logs-in and continues from the next
page (lines 1558-1586), and when it fails after its retries the error is
rethrown and the run aborts (1587-1591); captchaDetected breaks the loop
(1593-1596); timeout and other failures fall through to the next page
(1554-1557 and 1598-1606). -/
def scrapeLoop (cfg : Config) (env : RunEnv) : Nat → RunState → RunState
  | 0, st => st
  | fuel + 1, st =>
      if cfg.maxPages < st.page then st
      else if cfg.internalLimit ≤ st.state.internalCount ∧
          cfg.externalLimit ≤ st.state.externalCount then st
      else
        let stf : RunState := { st with fetchedPages := st.fetchedPages ++ [st.page] }
        let handlePageFailure : Bool → String → RunState := fun isTimeoutError message =>
          match classifyPageError isTimeoutError message with
          | PageErrorClass.sessionLost =>
              if env.reinitSucceeds st.page then
                scrapeLoop cfg env fuel
                  { stf with reinitCount := stf.reinitCount + 1
                             reloginAttempts := stf.reloginAttempts + 1
                             page := st.page + 1 }
              else
                { stf with aborted := true }
          | PageErrorClass.captchaDetected => { stf with stoppedByCaptcha := true }
          | _ => scrapeLoop cfg env fuel { stf with page := st.page + 1 }
        match env.pages st.page with
        | PageResult.cards cards noResultsConfirmed =>
            if cards = [] ∧ 1 < st.page then stf
            else if cards = [] ∧ st.page = 1 ∧ noResultsConfirmed then stf
            else
              let stc : RunState := { stf with state := processCards cfg stf.state cards }
              scrapeLoop cfg env fuel { stc with page := st.page + 1 }
        | PageResult.nothingFound pageSource noResultsConfirmed =>
            if includes (toLowerStr pageSource) "captcha" then
              handlePageFailure false "CAPTCHA challenge detected on results page"
            else if includes pageSource "No matching jobs found"
                || includes pageSource "no jobs found" then stf
            else if 1 < st.page then stf
            else if noResultsConfirmed then stf
            else scrapeLoop cfg env fuel { stf with page := st.page + 1 }
        | PageResult.pageError isTimeoutError message =>
            handlePageFailure isTimeoutError message

/-- Initial RunState (part_002 lines 843-848): empty batch, zero counters,
known-URL set seeded from the database scan of lines 878-886, page 1. -/
def initialRunState (seedUrls : List String) : RunState :=
  { state := { jobsToSave := [], internalCount := 0, externalCount := 0,
               newJobsCount := 0, scrapedUrls := seedUrls }
    page := 1
    fetchedPages := []
    reinitCount := 0
    reloginAttempts := 0
    stoppedByCaptcha := false
    aborted := false }

/-- scrapeNaukriJobs (part_002 lines 840-1743): login phase, then the page
loop from page 1.  The returned pair is the login status entering the search
phase and the final run state (the loop body does not read the login
status). -/
def scrapeNaukriJobs (cfg : Config) (env : RunEnv) (seedUrls : List String) :
    Bool × RunState :=
  (loginPhase cfg env, scrapeLoop cfg env (cfg.maxPages + 1) (initialRunState seedUrls))

/-! Invariant of the run bookkeeping: batch URLs are pairwise distinct and
recorded in the known-URL set, category counters respect their limits, and
the batch length, the two counters and the new-jobs counter stay in sync,
with no accepted record classified Unknown. -/

/-- Conjunction of the bookkeeping invariants preserved at every mutation
of the run state (all four quantities change only inside
addJobToSaveList). -/
def StateInv (cfg : Config) (s : ScrapeState) : Prop :=
  (s.jobsToSave.map JobData.jobUrl).Nodup ∧
  (∀ j ∈ s.jobsToSave, j.jobUrl ∈ s.scrapedUrls) ∧
  s.internalCount ≤ cfg.internalLimit ∧
  s.externalCount ≤ cfg.externalLimit ∧
  s.jobsToSave.length = s.internalCount + s.externalCount ∧
  s.newJobsCount = s.internalCount + s.externalCount ∧
  (∀ j ∈ s.jobsToSave, j.applicationType ≠ ApplicationType.unknown)

lemma stateInv_initial (cfg : Config) (seedUrls : List String) :
    StateInv cfg (initialRunState seedUrls).state := by
  refine ⟨?_, ?_, ?_, ?_, ?_, ?_, ?_⟩ <;> simp [initialRunState]

lemma addJobToSaveList_stateInv {cfg : Config} {s : ScrapeState} {jobData : JobData}
    {jobUrl : String} (h : StateInv cfg s) (hnew : jobUrl ∉ s.scrapedUrls)
    (hurl : jobData.jobUrl = jobUrl) :
    StateInv cfg (addJobToSaveList cfg s jobData jobUrl) := by
  obtain ⟨hnd, hmem, hint, hext, hlen, hnew', hty⟩ := h
  have hfresh : jobUrl ∉ s.jobsToSave.map JobData.jobUrl := by
    intro hin
    obtain ⟨j, hj, hju⟩ := List.mem_map.mp hin
    exact hnew (hju ▸ hmem j hj)
  unfold addJobToSaveList
  split_ifs with h1 h2
  · refine ⟨?_, ?_, ?_, ?_, ?_, ?_, ?_⟩
    · have hdisj : ∀ x ∈ s.jobsToSave, ¬x.jobUrl = jobData.jobUrl := by
        intro x hx heq
        apply hfresh
        rw [← hurl, ← heq]
        exact List.mem_map_of_mem _ hx
      simpa [List.nodup_append] using ⟨hnd, hdisj⟩
    · intro j hj
      rcases List.mem_append.mp hj with hj | hj
      · exact List.mem_cons_of_mem _ (hmem j hj)
      · simp only [List.mem_singleton] at hj
        subst hj
        exact hurl ▸ List.mem_cons_self _ _
    · exact h1.2
    · exact hext
    · simp [hlen]; omega
    · simp [hnew']; omega
    · intro j hj
      rcases List.mem_append.mp hj with hj | hj
      · exact hty j hj
      · simp only [List.mem_singleton] at hj
        subst hj
        simp [h1.1]
  · refine ⟨?_, ?_, ?_, ?_, ?_, ?_, ?_⟩
    · have hdisj : ∀ x ∈ s.jobsToSave, ¬x.jobUrl = jobData.jobUrl := by
        intro x hx heq
        apply hfresh
        rw [← hurl, ← heq]
        exact List.mem_map_of_mem _ hx
      simpa [List.nodup_append] using ⟨hnd, hdisj⟩
    · intro j hj
      rcases List.mem_append.mp hj with hj | hj
      · exact List.mem_cons_of_mem _ (hmem j hj)
      · simp only [List.mem_singleton] at hj
        subst hj
        exact hurl ▸ List.mem_cons_self _ _
    · exact hint
    · exact h2.2
    · simp [hlen]; omega
    · simp [hnew']; omega
    · intro j hj
      rcases List.mem_append.mp hj with hj | hj
      · exact hty j hj
      · simp only [List.mem_singleton] at hj
        subst hj
        simp [h2.1]
  · exact ⟨hnd, hmem, hint, hext, hlen, hnew', hty⟩

lemma processCard_stateInv {cfg : Config} {s : ScrapeState} {card : Card}
    (h : StateInv cfg s) : StateInv cfg (processCard cfg s card).1 := by
  unfold processCard
  match card.jobUrl with
  | none => exact h
  | some jobUrl =>
      by_cases hdup : jobUrl ∈ s.scrapedUrls
      · simp only [if_pos hdup]
        exact h
      · simp only [if_neg hdup]
        match card.cardError with
        | some message => exact h
        | none => exact addJobToSaveList_stateInv h hdup rfl

lemma processCards_stateInv {cfg : Config} {cards : List Card} :
    ∀ {s : ScrapeState}, StateInv cfg s → StateInv cfg (processCards cfg s cards) := by
  induction cards with
  | nil => intro s h; exact h
  | cons card rest ih =>
      intro s h
      unfold processCards
      split_ifs with hlim
      · exact h
      · have h2 : StateInv cfg (processCard cfg s card).1 := processCard_stateInv h
        rcases hpc : processCard cfg s card with ⟨s2, b⟩
        rw [hpc] at h2
        match b with
        | true => exact h2
        | false => exact ih h2

lemma addJobToSaveList_counts_mono (cfg : Config) (s : ScrapeState)
    (jobData : JobData) (jobUrl : String) :
    s.internalCount ≤ (addJobToSaveList cfg s jobData jobUrl).internalCount ∧
    s.externalCount ≤ (addJobToSaveList cfg s jobData jobUrl).externalCount := by
  unfold addJobToSaveList
  split_ifs <;> simp

lemma processCard_counts_mono (cfg : Config) (s : ScrapeState) (card : Card) :
    s.internalCount ≤ (processCard cfg s card).1.internalCount ∧
    s.externalCount ≤ (processCard cfg s card).1.externalCount := by
  unfold processCard
  rcases hu : card.jobUrl with _ | jobUrl
  · simp
  · by_cases hdup : jobUrl ∈ s.scrapedUrls
    · simp [hdup]
    · simp only [if_neg hdup]
      rcases he : card.cardError with _ | message
      · exact addJobToSaveList_counts_mono cfg s _ jobUrl
      · simp

lemma processCards_counts_mono (cfg : Config) (cards : List Card) :
    ∀ s : ScrapeState,
      s.internalCount ≤ (processCards cfg s cards).internalCount ∧
      s.externalCount ≤ (processCards cfg s cards).externalCount := by
  induction cards with
  | nil => intro s; simp [processCards]
  | cons card rest ih =>
      intro s
      unfold processCards
      split_ifs with hlim
      · simp
      · rcases hpc : processCard cfg s card with ⟨s2, b⟩
        have h1 := processCard_counts_mono cfg s card
        rw [hpc] at h1
        match b with
        | true => exact h1
        | false =>
            have h2 := ih s2
            exact ⟨h1.1.trans h2.1, h1.2.trans h2.2⟩

/-- Abbreviation: the run state after a loop break that fetched the current
page (state possibly advanced by the card loop, CAPTCHA flag as given). -/
def breakState (st : RunState) (s2 : ScrapeState) (cap : Bool) : RunState :=
  { st with state := s2, fetchedPages := st.fetchedPages ++ [st.page], stoppedByCaptcha := cap }

/-- Abbreviation: the run state handed to the next loop iteration after
fetching the current page (ri = 1 when the driver was reinitialized and a
re-login attempted, 0 otherwise). -/
def nextPageState (st : RunState) (s2 : ScrapeState) (ri : Nat) : RunState :=
  { st with state := s2, page := st.page + 1, fetchedPages := st.fetchedPages ++ [st.page], reinitCount := st.reinitCount + ri, reloginAttempts := st.reloginAttempts + ri }

/-- Abbreviation: the run state after the reinitialization failure rethrow
aborted the run — the failed page was fetched, the scrape bookkeeping is
preserved (the outer catch still saves the partial results), and no further
page is processed. -/
def abortRunState (st : RunState) : RunState :=
  { st with fetchedPages := st.fetchedPages ++ [st.page], aborted := true }

lemma classify_captcha_message :
    classifyPageError false "CAPTCHA challenge detected on results page" =
      PageErrorClass.captchaDetected := by
  decide

/-- Case analysis for one iteration of the page loop: either a stop
condition held and the state is unchanged, or the page was fetched and the
loop broke, continued at the next page number, or aborted on a failed
reinitialization, with the scrape state either untouched or advanced by
processCards. -/
lemma scrapeLoop_succ_cases (cfg : Config) (env : RunEnv) (fuel : Nat) (st : RunState) :
    ((cfg.maxPages < st.page ∨
        (cfg.internalLimit ≤ st.state.internalCount ∧
         cfg.externalLimit ≤ st.state.externalCount)) ∧
      scrapeLoop cfg env (fuel + 1) st = st) ∨
    (st.page ≤ cfg.maxPages ∧
      ¬(cfg.internalLimit ≤ st.state.internalCount ∧
        cfg.externalLimit ≤ st.state.externalCount) ∧
      ((∃ s2 cap, (s2 = st.state ∨ ∃ cards, s2 = processCards cfg st.state cards) ∧
          scrapeLoop cfg env (fuel + 1) st = breakState st s2 cap) ∨
       (∃ s2 ri, (s2 = st.state ∨ ∃ cards, s2 = processCards cfg st.state cards) ∧
          scrapeLoop cfg env (fuel + 1) st =
            scrapeLoop cfg env fuel (nextPageState st s2 ri)) ∨
       scrapeLoop cfg env (fuel + 1) st = abortRunState st)) := by
  by_cases h1 : cfg.maxPages < st.page
  · left
    refine ⟨Or.inl h1, ?_⟩
    rw [scrapeLoop, if_pos h1]
  · by_cases h2 : cfg.internalLimit ≤ st.state.internalCount ∧
        cfg.externalLimit ≤ st.state.externalCount
    · left
      refine ⟨Or.inr h2, ?_⟩
      rw [scrapeLoop, if_neg h1, if_pos h2]
    · right
      refine ⟨Nat.le_of_not_lt h1, h2, ?_⟩
      rw [scrapeLoop, if_neg h1, if_neg h2]
      rcases hp : env.pages st.page with ⟨cards, nrc⟩ | ⟨src, nrc⟩ | ⟨isT, msg⟩
      · by_cases hc1 : cards = [] ∧ 1 < st.page
        · exact Or.inl ⟨st.state, st.stoppedByCaptcha, Or.inl rfl, by simp [breakState, nextPageState, hp, hc1]⟩
        · by_cases hc2 : cards = [] ∧ st.page = 1 ∧ nrc = true
          · exact Or.inl ⟨st.state, st.stoppedByCaptcha, Or.inl rfl, by simp [breakState, nextPageState, hp, hc1, hc2]⟩
          · refine Or.inr (Or.inl ⟨processCards cfg st.state cards, 0, Or.inr ⟨cards, rfl⟩, ?_⟩)
            simp [breakState, nextPageState, hp, hc1, hc2]
      · by_cases hcap : includes (toLowerStr src) "captcha" = true
        · refine Or.inl ⟨st.state, true, Or.inl rfl, ?_⟩
          simp [breakState, nextPageState, hp, hcap, classify_captcha_message]
        · by_cases hnr : (includes src "No matching jobs found"
              || includes src "no jobs found") = true
          · exact Or.inl ⟨st.state, st.stoppedByCaptcha, Or.inl rfl, by simp [breakState, nextPageState, hp, hcap, hnr]⟩
          · by_cases hpg : 1 < st.page
            · exact Or.inl ⟨st.state, st.stoppedByCaptcha, Or.inl rfl,
                by simp [breakState, nextPageState, hp, hcap, hnr, hpg]⟩
            · by_cases hnrc : nrc = true
              · exact Or.inl ⟨st.state, st.stoppedByCaptcha, Or.inl rfl,
                  by simp [breakState, nextPageState, hp, hcap, hnr, hpg, hnrc]⟩
              · refine Or.inr (Or.inl ⟨st.state, 0, Or.inl rfl, ?_⟩)
                simp [breakState, nextPageState, hp, hcap, hnr, hpg, hnrc]
      · rcases hcls : classifyPageError isT msg
        · refine Or.inr (Or.inl ⟨st.state, 0, Or.inl rfl, ?_⟩)
          simp [breakState, nextPageState, hp, hcls]
        · by_cases hri : env.reinitSucceeds st.page = true
          · refine Or.inr (Or.inl ⟨st.state, 1, Or.inl rfl, ?_⟩)
            simp [breakState, nextPageState, hp, hcls, hri]
          · refine Or.inr (Or.inr ?_)
            simp [abortRunState, hp, hcls, hri]
        · refine Or.inl ⟨st.state, true, Or.inl rfl, ?_⟩
          simp [breakState, nextPageState, hp, hcls]
        · refine Or.inr (Or.inl ⟨st.state, 0, Or.inl rfl, ?_⟩)
          simp [breakState, nextPageState, hp, hcls]

lemma scrapeLoop_counts_mono (cfg : Config) (env : RunEnv) :
    ∀ (fuel : Nat) (st : RunState),
      st.state.internalCount ≤ (scrapeLoop cfg env fuel st).state.internalCount ∧
      st.state.externalCount ≤ (scrapeLoop cfg env fuel st).state.externalCount := by
  intro fuel
  induction fuel with
  | zero => intro st; exact ⟨le_refl _, le_refl _⟩
  | succ fuel ih =>
      intro st
      rcases scrapeLoop_succ_cases cfg env fuel st with ⟨_, heq⟩ | ⟨_, _, hcase⟩
      · rw [heq]; exact ⟨le_refl _, le_refl _⟩
      · rcases hcase with ⟨s2, cap, hs2, heq⟩ | ⟨s2, ri, hs2, heq⟩ | heq
        · rw [heq]
          rcases hs2 with rfl | ⟨cards, rfl⟩
          · exact ⟨le_refl _, le_refl _⟩
          · exact processCards_counts_mono cfg cards st.state
        · rw [heq]
          have hmono : st.state.internalCount ≤ s2.internalCount ∧
              st.state.externalCount ≤ s2.externalCount := by
            rcases hs2 with rfl | ⟨cards, rfl⟩
            · exact ⟨le_refl _, le_refl _⟩
            · exact processCards_counts_mono cfg cards st.state
          have hl := ih (nextPageState st s2 ri)
          exact ⟨hmono.1.trans hl.1, hmono.2.trans hl.2⟩
        · rw [heq]
          exact ⟨le_refl _, le_refl _⟩

lemma scrapeLoop_stateInv (cfg : Config) (env : RunEnv) :
    ∀ (fuel : Nat) (st : RunState), StateInv cfg st.state →
      StateInv cfg (scrapeLoop cfg env fuel st).state := by
  intro fuel
  induction fuel with
  | zero => intro st h; exact h
  | succ fuel ih =>
      intro st h
      rcases scrapeLoop_succ_cases cfg env fuel st with ⟨_, heq⟩ | ⟨_, _, hcase⟩
      · rw [heq]; exact h
      · rcases hcase with ⟨s2, cap, hs2, heq⟩ | ⟨s2, ri, hs2, heq⟩ | heq
        · rw [heq]
          rcases hs2 with rfl | ⟨cards, rfl⟩
          · exact h
          · exact processCards_stateInv h
        · rw [heq]
          refine ih (nextPageState st s2 ri) ?_
          rcases hs2 with rfl | ⟨cards, rfl⟩
          · exact h
          · exact processCards_stateInv h
        · rw [heq]
          exact h

lemma scrapeLoop_fetchedPages_growth (cfg : Config) (env : RunEnv) :
    ∀ (fuel : Nat) (st : RunState),
      ∃ t, (scrapeLoop cfg env fuel st).fetchedPages = st.fetchedPages ++ t ∧
        ∀ q ∈ t, st.page ≤ q := by
  intro fuel
  induction fuel with
  | zero => intro st; exact ⟨[], by simp [scrapeLoop], by simp⟩
  | succ fuel ih =>
      intro st
      rcases scrapeLoop_succ_cases cfg env fuel st with ⟨_, heq⟩ | ⟨_, _, hcase⟩
      · exact ⟨[], by simp [heq], by simp⟩
      · rcases hcase with ⟨s2, cap, hs2, heq⟩ | ⟨s2, ri, hs2, heq⟩ | heq
        · exact ⟨[st.page], by simp [heq, breakState], by simp⟩
        · obtain ⟨t, ht, hge⟩ := ih (nextPageState st s2 ri)
          refine ⟨st.page :: t, ?_, ?_⟩
          · rw [heq, ht]; simp [nextPageState]
          · intro q hq
            rcases List.mem_cons.mp hq with rfl | hq
            · exact le_refl _
            · exact (Nat.le_succ _).trans (hge q hq)
        · exact ⟨[st.page], by simp [heq, abortRunState], by simp⟩

lemma scrapeLoop_fetches_current (cfg : Config) (env : RunEnv) (fuel : Nat)
    (st : RunState) (h1 : st.page ≤ cfg.maxPages)
    (h2 : ¬(cfg.internalLimit ≤ st.state.internalCount ∧
        cfg.externalLimit ≤ st.state.externalCount)) :
    st.page ∈ (scrapeLoop cfg env (fuel + 1) st).fetchedPages := by
  rcases scrapeLoop_succ_cases cfg env fuel st with ⟨hstop, _⟩ | ⟨_, _, hcase⟩
  · rcases hstop with hlt | hlim
    · omega
    · exact absurd hlim h2
  · rcases hcase with ⟨s2, cap, hs2, heq⟩ | ⟨s2, ri, hs2, heq⟩ | heq
    · rw [heq]; simp [breakState]
    · rw [heq]
      obtain ⟨t, ht, _⟩ := scrapeLoop_fetchedPages_growth cfg env fuel _
      rw [ht]; simp [nextPageState]
    · rw [heq]; simp [abortRunState]

/-- C1: in every run, the accepted output batch contains pairwise-distinct
job URLs — a card whose resolved URL is already in the known-URL set (seeded
from the persisted store, grown at acceptance) is skipped and never pushed
to the batch a second time. -/
theorem scrape_batch_urls_pairwise_distinct (cfg : Config) (env : RunEnv)
    (seedUrls : List String) :
    (((scrapeNaukriJobs cfg env seedUrls).2.state.jobsToSave).map JobData.jobUrl).Nodup :=
  (scrapeLoop_stateInv cfg env (cfg.maxPages + 1) (initialRunState seedUrls)
    (stateInv_initial cfg seedUrls)).1

/-- C2: the accepted count of each category never exceeds its configured
limit — a record is pushed and its counter incremented only when the counter
is strictly below the limit, so the bound holds for the final state of every
run (and, since the counters are mutated nowhere else and only ever
incremented under the same guard, at every intermediate state as well). -/
theorem scrape_counts_never_exceed_limits (cfg : Config) (env : RunEnv)
    (seedUrls : List String) :
    (scrapeNaukriJobs cfg env seedUrls).2.state.internalCount ≤ cfg.internalLimit ∧
    (scrapeNaukriJobs cfg env seedUrls).2.state.externalCount ≤ cfg.externalLimit :=
  ⟨(scrapeLoop_stateInv cfg env (cfg.maxPages + 1) (initialRunState seedUrls)
      (stateInv_initial cfg seedUrls)).2.2.1,
   (scrapeLoop_stateInv cfg env (cfg.maxPages + 1) (initialRunState seedUrls)
      (stateInv_initial cfg seedUrls)).2.2.2.1⟩

/-- C10: the length of the accumulated batch equals
internalCount + externalCount and equals the new-jobs counter; all four
quantities are mutated together only inside addJobToSaveList, each accepted
record being counted in exactly one category. -/
theorem batch_length_equals_category_counts (cfg : Config) (env : RunEnv)
    (seedUrls : List String) :
    (scrapeNaukriJobs cfg env seedUrls).2.state.jobsToSave.length =
        (scrapeNaukriJobs cfg env seedUrls).2.state.internalCount +
        (scrapeNaukriJobs cfg env seedUrls).2.state.externalCount ∧
    (scrapeNaukriJobs cfg env seedUrls).2.state.newJobsCount =
        (scrapeNaukriJobs cfg env seedUrls).2.state.internalCount +
        (scrapeNaukriJobs cfg env seedUrls).2.state.externalCount :=
  ⟨(scrapeLoop_stateInv cfg env (cfg.maxPages + 1) (initialRunState seedUrls)
      (stateInv_initial cfg seedUrls)).2.2.2.2.1,
   (scrapeLoop_stateInv cfg env (cfg.maxPages + 1) (initialRunState seedUrls)
      (stateInv_initial cfg seedUrls)).2.2.2.2.2.1⟩

/-- C8: every JobRecord accepted into the final output is classified
Internal or External, never Unknown — the classification defaults to
Internal and is changed only to External on positive evidence of an
external redirect (classifyApplicationType never yields unknown). -/
theorem accepted_records_never_unknown (cfg : Config) (env : RunEnv)
    (seedUrls : List String) (j : JobData)
    (hj : j ∈ (scrapeNaukriJobs cfg env seedUrls).2.state.jobsToSave) :
    j.applicationType = ApplicationType.internal ∨
    j.applicationType = ApplicationType.external := by
  have hne := (scrapeLoop_stateInv cfg env (cfg.maxPages + 1) (initialRunState seedUrls)
    (stateInv_initial cfg seedUrls)).2.2.2.2.2.2 j hj
  cases hty : j.applicationType
  · exact Or.inl rfl
  · exact Or.inr rfl
  · exact absurd hty hne

/-- C7: the enricher accepts a detail-page description only when it is
strictly longer than the card-summary description (the source even demands
more than 20 characters longer); when every detail-page candidate is no
longer than the summary, the summary description is retained — the value
never regresses to a shorter one. -/
theorem detail_description_never_regresses (detailedDescription : String)
    (candidates : List (Option String)) :
    pickDetailedDescription detailedDescription candidates = detailedDescription ∨
    detailedDescription.length <
      (pickDetailedDescription detailedDescription candidates).length := by
  induction candidates with
  | nil => exact Or.inl rfl
  | cons c rest ih =>
      rcases c with _ | detailText
      · simpa [pickDetailedDescription] using ih
      · by_cases h : detailText ≠ "" ∧
            detailedDescription.length + 20 < detailText.length
        · right
          simp only [pickDetailedDescription, if_pos h]
          omega
        · simpa [pickDetailedDescription, if_neg h] using ih

/-- C6: the page-1 search URL carries no page-number parameter, and for
page N > 1 the pageNo parameter is appended with separator "&" when the
experience filter is already part of the base URL and with "?" when it is
not. -/
theorem page_number_parameter_separator (cfg : Config) :
    currentPageUrl cfg 1 = searchUrlBase cfg ∧
    (∀ page : Nat, 1 < page →
      currentPageUrl cfg page =
        searchUrlBase cfg ++ (if experienceFilterPresent cfg.experience then "&" else "?")
          ++ "pageNo=" ++ toString page) := by
  constructor
  · simp [currentPageUrl]
  · intro page hpage
    unfold currentPageUrl searchUrlParams
    rw [if_pos hpage]
    split_ifs with hexp
    · simp [String.append_assoc]
    · simp [String.append_assoc]

/-- C3: when CAPTCHA marker text is detected on a search-results page, the
thrown challenge error stops the page loop entirely: the run state is the
break state of the current page — no further page is fetched, the failed
page is not retried, and the driver is not reinitialized (reinitCount is
unchanged). -/
theorem captcha_stops_page_loop (cfg : Config) (env : RunEnv) (fuel : Nat)
    (st : RunState) (pageSource : String) (noResultsConfirmed : Bool)
    (h1 : st.page ≤ cfg.maxPages)
    (h2 : ¬(cfg.internalLimit ≤ st.state.internalCount ∧
        cfg.externalLimit ≤ st.state.externalCount))
    (hp : env.pages st.page = PageResult.nothingFound pageSource noResultsConfirmed)
    (hcap : includes (toLowerStr pageSource) "captcha" = true) :
    scrapeLoop cfg env (fuel + 1) st = breakState st st.state true ∧
    (scrapeLoop cfg env (fuel + 1) st).reinitCount = st.reinitCount ∧
    (scrapeLoop cfg env (fuel + 1) st).fetchedPages = st.fetchedPages ++ [st.page] ∧
    (scrapeLoop cfg env (fuel + 1) st).stoppedByCaptcha = true := by
  have heq : scrapeLoop cfg env (fuel + 1) st = breakState st st.state true := by
    rw [scrapeLoop, if_neg (show ¬cfg.maxPages < st.page by omega), if_neg h2]
    simp [breakState, hp, hcap, classify_captcha_message]
  refine ⟨heq, ?_, ?_, ?_⟩ <;> rw [heq] <;> simp [breakState]

/-- C4 (amended): a page-level failure whose error text carries a
session-death keyword (and is not a timeout) makes the coordinator tear
down the driver and attempt reinitialization; provided initializeDriver
succeeds within its retries, it attempts a re-login and resumes the loop at
the next page with the scrape state intact — the failed page is fetched
exactly once (never retried) and the run is not aborted.  (Without that
proviso the claim is false: when initializeDriver fails after its retries
the error is rethrown at part_002 line 1591 and the run aborts; see the
counterexample below.) -/
theorem session_crash_reinit_resumes_next_page (cfg : Config) (env : RunEnv)
    (fuel : Nat) (st : RunState) (isTimeoutError : Bool) (message : String)
    (h1 : st.page ≤ cfg.maxPages)
    (h2 : ¬(cfg.internalLimit ≤ st.state.internalCount ∧
        cfg.externalLimit ≤ st.state.externalCount))
    (hp : env.pages st.page = PageResult.pageError isTimeoutError message)
    (hT : isTimeoutError = false)
    (hkw : (includes message "session" || includes message "crashed"
        || includes message "disconnected" || includes message "target closed") = true)
    (hreinit : env.reinitSucceeds st.page = true) :
    scrapeLoop cfg env (fuel + 1) st =
      scrapeLoop cfg env fuel (nextPageState st st.state 1) ∧
    (nextPageState st st.state 1).reinitCount = st.reinitCount + 1 ∧
    (nextPageState st st.state 1).reloginAttempts = st.reloginAttempts + 1 ∧
    (nextPageState st st.state 1).page = st.page + 1 ∧
    (nextPageState st st.state 1).state = st.state ∧
    (scrapeLoop cfg env (fuel + 1) st).fetchedPages.count st.page =
      st.fetchedPages.count st.page + 1 := by
  subst hT
  have hcls : classifyPageError false message = PageErrorClass.sessionLost := by
    simp [classifyPageError, hkw]
  have heq : scrapeLoop cfg env (fuel + 1) st =
      scrapeLoop cfg env fuel (nextPageState st st.state 1) := by
    rw [scrapeLoop, if_neg (show ¬cfg.maxPages < st.page by omega), if_neg h2]
    simp [nextPageState, hp, hcls, hreinit]
  refine ⟨heq, rfl, rfl, rfl, rfl, ?_⟩
  rw [heq]
  obtain ⟨t, ht, hge⟩ :=
    scrapeLoop_fetchedPages_growth cfg env fuel (nextPageState st st.state 1)
  rw [ht]
  have hnot : st.page ∉ t := by
    intro hmem
    have hle := hge st.page hmem
    simp [nextPageState] at hle
  rw [show (nextPageState st st.state 1).fetchedPages =
      st.fetchedPages ++ [st.page] from rfl]
  rw [List.count_append, List.count_append, List.count_eq_zero.mpr hnot]
  simp

/-- Helper for the pagination claim: when every result page yields a
nonempty card list and the run never reaches both category limits, the loop
fetches every page number from the current one up to the configured
maximum, each exactly once and in order. -/
lemma scrapeLoop_allCards_fetches (cfg : Config) (env : RunEnv)
    (hpages : ∀ p, ∃ cs nrc, env.pages p = PageResult.cards cs nrc ∧ cs ≠ []) :
    ∀ (fuel : Nat) (st : RunState),
      cfg.maxPages + 1 ≤ fuel + st.page →
      1 ≤ st.page →
      ¬(cfg.internalLimit ≤ (scrapeLoop cfg env fuel st).state.internalCount ∧
        cfg.externalLimit ≤ (scrapeLoop cfg env fuel st).state.externalCount) →
      (scrapeLoop cfg env fuel st).fetchedPages =
        st.fetchedPages ++ List.range' st.page (cfg.maxPages + 1 - st.page) := by
  intro fuel
  induction fuel with
  | zero =>
      intro st hf hpg hlim
      have h0 : cfg.maxPages + 1 - st.page = 0 := by omega
      simp [scrapeLoop, h0]
  | succ fuel ih =>
      intro st hf hpg hlim
      by_cases hgt : cfg.maxPages < st.page
      · have heq : scrapeLoop cfg env (fuel + 1) st = st := by
          rw [scrapeLoop, if_pos hgt]
        have h0 : cfg.maxPages + 1 - st.page = 0 := by omega
        simp [heq, h0]
      · have h2 : ¬(cfg.internalLimit ≤ st.state.internalCount ∧
            cfg.externalLimit ≤ st.state.externalCount) := by
          intro hsat
          have heq : scrapeLoop cfg env (fuel + 1) st = st := by
            rw [scrapeLoop, if_neg hgt, if_pos hsat]
          rw [heq] at hlim
          exact hlim hsat
        obtain ⟨cs, nrc, hp, hcs⟩ := hpages st.page
        have hc1 : ¬(cs = [] ∧ 1 < st.page) := fun h => hcs h.1
        have hc2 : ¬(cs = [] ∧ st.page = 1 ∧ nrc = true) := fun h => hcs h.1
        have heq : scrapeLoop cfg env (fuel + 1) st =
            scrapeLoop cfg env fuel
              (nextPageState st (processCards cfg st.state cs) 0) := by
          rw [scrapeLoop, if_neg hgt, if_neg h2]
          simp [nextPageState, hp, hc1, hc2]
        rw [heq] at hlim ⊢
        have hf2 : cfg.maxPages + 1 ≤ fuel + (st.page + 1) := by omega
        have hpg2 : 1 ≤ st.page + 1 := by omega
        rw [ih (nextPageState st (processCards cfg st.state cs) 0) hf2 hpg2 hlim]
        have hcount : cfg.maxPages + 1 - st.page =
            (cfg.maxPages + 1 - (st.page + 1)) + 1 := by omega
        rw [hcount, List.range'_succ]
        simp [nextPageState]

/-- C5: with maxPages = 3 and result pages that always contain cards, while
the two category limits are never both satisfied, the page loop issues
exactly three page fetches — pages 1, 2 and 3 and nothing else — because
both stop conditions are evaluated before each fetch. -/
theorem pagination_fetches_exactly_max_pages (cfg : Config) (env : RunEnv)
    (seedUrls : List String) (hmax : cfg.maxPages = 3)
    (hpages : ∀ p, ∃ cs nrc, env.pages p = PageResult.cards cs nrc ∧ cs ≠ [])
    (hlim : ¬(cfg.internalLimit ≤ (scrapeNaukriJobs cfg env seedUrls).2.state.internalCount ∧
        cfg.externalLimit ≤ (scrapeNaukriJobs cfg env seedUrls).2.state.externalCount)) :
    (scrapeNaukriJobs cfg env seedUrls).2.fetchedPages = [1, 2, 3] := by
  have h := scrapeLoop_allCards_fetches cfg env hpages (cfg.maxPages + 1)
    (initialRunState seedUrls) (by simp [initialRunState]) (by simp [initialRunState]) hlim
  rw [show (scrapeNaukriJobs cfg env seedUrls).2 =
      scrapeLoop cfg env (cfg.maxPages + 1) (initialRunState seedUrls) from rfl, h, hmax]
  rfl

/-- C9: a login call with an empty email or empty password returns false
immediately, performing no navigation at all; a run configured with such
credentials (and no restorable cookie session) enters the search phase not
logged in and still fetches the first results page — it proceeds in
anonymous mode. -/
theorem login_empty_credentials_no_navigation (email password : String)
    (rest : LoginOutcome) (hcred : email = "" ∨ password = "") :
    loginToNaukri email password rest = { result := false, navigations := [] } ∧
    (∀ (cfg : Config) (env : RunEnv) (seedUrls : List String),
      cfg.email = email → cfg.password = password → env.cookiesRestored = false →
      1 ≤ cfg.maxPages → ¬(cfg.internalLimit = 0 ∧ cfg.externalLimit = 0) →
      (scrapeNaukriJobs cfg env seedUrls).1 = false ∧
      1 ∈ (scrapeNaukriJobs cfg env seedUrls).2.fetchedPages) := by
  constructor
  · unfold loginToNaukri
    rcases hcred with rfl | rfl
    · simp
    · simp
  · intro cfg env seedUrls hm hpw hcr hmax hlim
    constructor
    · show loginPhase cfg env = false
      unfold loginPhase
      rw [hcr]
      rcases hcred with h | h
      · rw [hm, h]
        simp
      · rw [hpw, h]
        simp
    · show 1 ∈ (scrapeLoop cfg env (cfg.maxPages + 1) (initialRunState seedUrls)).fetchedPages
      have hmem := scrapeLoop_fetches_current cfg env cfg.maxPages (initialRunState seedUrls)
        (by simpa [initialRunState] using hmax)
        (by simp [initialRunState]; omega)
      simpa [initialRunState] using hmem

/-! Concrete instances used to witness the theorems with hypotheses. -/

/-- A run configuration with the default query/location, no credentials and
a two-page cap. -/
def cfgTwoPages : Config :=
  { email := "", password := "", query := "Data Analyst", location := "Bangalore",
    experience := "0", internalLimit := 15, externalLimit := 5, maxPages := 2 }

/-- cfgTwoPages with the experience filter set. -/
def cfgExperienceSet : Config := { cfgTwoPages with experience := "3" }

/-- cfgTwoPages with a three-page cap. -/
def cfgThreePages : Config := { cfgTwoPages with maxPages := 3 }

/-- cfgTwoPages with a one-page cap. -/
def cfgOnePage : Config := { cfgTwoPages with maxPages := 1 }

/-- cfgTwoPages with a password but an empty email. -/
def cfgEmptyEmail : Config := { cfgTwoPages with password := "secret" }

/-- A listing card whose title link yields no href. -/
def cardNoUrl : Card :=
  { jobUrl := none, jobTitle := "Not available", companyName := "Not available",
    location := "Bangalore", experience := "Not specified", salary := "Not disclosed",
    skills := "Not available", cardDescription := "Not available",
    detailDescCandidates := [], externalApplyVisible := false,
    standardApplyVisible := true, cardError := none }

/-- A fully resolvable internal-application card. -/
def cardInternalSample : Card :=
  { cardNoUrl with
    jobUrl := some "https://www.naukri.com/job-listings-data-analyst-acme-1",
    jobTitle := "Data Analyst", companyName := "Acme", skills := "SQL, Excel",
    cardDescription := "Analyze data",
    detailDescCandidates := [some "Analyze data and build dashboards for business teams"] }

/-- Environment in which every results page shows the CAPTCHA wall. -/
def envCaptcha : RunEnv :=
  { cookiesRestored := false, loggedInViaCookies := false,
    loginRest := { result := false, navigations := [] },
    reinitSucceeds := fun _ => true,
    pages := fun _ => PageResult.nothingFound "Please complete the CAPTCHA to continue" false }

/-- Environment in which page 1 dies with a session-crash error and later
pages are empty. -/
def envCrash : RunEnv :=
  { cookiesRestored := false, loggedInViaCookies := false,
    loginRest := { result := false, navigations := [] },
    reinitSucceeds := fun _ => true,
    pages := fun p =>
      if p = 1 then
        PageResult.pageError false "Chrome session deleted because the browser crashed"
      else
        PageResult.cards [] false }

/-- Environment identical to envCrash except that driver reinitialization
fails after its retries, so the crash handler rethrows. -/
def envCrashReinitFails : RunEnv :=
  { cookiesRestored := false, loggedInViaCookies := false,
    loginRest := { result := false, navigations := [] },
    reinitSucceeds := fun _ => false,
    pages := fun p =>
      if p = 1 then
        PageResult.pageError false "Chrome session deleted because the browser crashed"
      else
        PageResult.cards [] false }

/-- Environment in which every page yields exactly one no-URL card. -/
def envCardsEveryPage : RunEnv :=
  { cookiesRestored := false, loggedInViaCookies := false,
    loginRest := { result := false, navigations := [] },
    reinitSucceeds := fun _ => true,
    pages := fun _ => PageResult.cards [cardNoUrl] false }

/-- Environment in which every page yields the internal-application card. -/
def envInternalCard : RunEnv :=
  { cookiesRestored := false, loggedInViaCookies := false,
    loginRest := { result := false, navigations := [] },
    reinitSucceeds := fun _ => true,
    pages := fun _ => PageResult.cards [cardInternalSample] false }

/-- The record built from cardInternalSample. -/
def jobSample : JobData :=
  mkJobData cfgOnePage cardInternalSample
    "https://www.naukri.com/job-listings-data-analyst-acme-1"

/-- A login continuation that would log in and navigate if it were reached. -/
def restSample : LoginOutcome :=
  { result := true, navigations := ["https://www.naukri.com/"] }

theorem captcha_stops_page_loop_witness :
    scrapeLoop cfgTwoPages envCaptcha 3 (initialRunState []) =
        breakState (initialRunState []) (initialRunState []).state true ∧
    (scrapeLoop cfgTwoPages envCaptcha 3 (initialRunState [])).reinitCount = 0 ∧
    (scrapeLoop cfgTwoPages envCaptcha 3 (initialRunState [])).fetchedPages = [1] ∧
    (scrapeLoop cfgTwoPages envCaptcha 3 (initialRunState [])).stoppedByCaptcha = true :=
  captcha_stops_page_loop cfgTwoPages envCaptcha 2 (initialRunState [])
    "Please complete the CAPTCHA to continue" false (by decide) (by decide) rfl (by decide)

theorem session_crash_reinit_resumes_next_page_witness :
    scrapeLoop cfgTwoPages envCrash 3 (initialRunState []) =
        scrapeLoop cfgTwoPages envCrash 2
          (nextPageState (initialRunState []) (initialRunState []).state 1) ∧
    (nextPageState (initialRunState []) (initialRunState []).state 1).reinitCount = 1 ∧
    (nextPageState (initialRunState []) (initialRunState []).state 1).reloginAttempts = 1 ∧
    (nextPageState (initialRunState []) (initialRunState []).state 1).page = 2 ∧
    (nextPageState (initialRunState []) (initialRunState []).state 1).state =
        (initialRunState []).state ∧
    (scrapeLoop cfgTwoPages envCrash 3 (initialRunState [])).fetchedPages.count 1 = 1 :=
  session_crash_reinit_resumes_next_page cfgTwoPages envCrash 2 (initialRunState [])
    false "Chrome session deleted because the browser crashed"
    (by decide) (by decide) rfl rfl (by decide) rfl

/-- C4 counterexample: the claim as frozen is false on the code.  On page 1
a failure with the session-death keyword "crashed" occurs, yet when driver
reinitialization fails after its retries the run aborts — no re-login is
attempted, processing does not resume at page 2, contradicting "the run is
not aborted". -/
theorem session_crash_unconditional_resume_counterexample :
    envCrashReinitFails.pages 1 =
        PageResult.pageError false "Chrome session deleted because the browser crashed" ∧
    includes "Chrome session deleted because the browser crashed" "crashed" = true ∧
    (scrapeNaukriJobs cfgTwoPages envCrashReinitFails []).2.aborted = true ∧
    (scrapeNaukriJobs cfgTwoPages envCrashReinitFails []).2.fetchedPages = [1] ∧
    (scrapeNaukriJobs cfgTwoPages envCrashReinitFails []).2.reloginAttempts = 0 :=
  ⟨rfl, by decide, by decide, by decide, by decide⟩

theorem pagination_fetches_exactly_max_pages_witness :
    (scrapeNaukriJobs cfgThreePages envCardsEveryPage []).2.fetchedPages = [1, 2, 3] :=
  pagination_fetches_exactly_max_pages cfgThreePages envCardsEveryPage [] rfl
    (fun _ => ⟨[cardNoUrl], false, rfl, by simp⟩) (by decide)

theorem page_number_parameter_separator_witness :
    currentPageUrl cfgExperienceSet 2 =
        "https://www.naukri.com/data-analyst-jobs-in-bangalore?experience=3&pageNo=2" ∧
    currentPageUrl cfgTwoPages 2 =
        "https://www.naukri.com/data-analyst-jobs-in-bangalore?pageNo=2" :=
  ⟨((page_number_parameter_separator cfgExperienceSet).2 2 (by decide)).trans (by decide),
   ((page_number_parameter_separator cfgTwoPages).2 2 (by decide)).trans (by decide)⟩

theorem accepted_records_never_unknown_witness :
    jobSample.applicationType = ApplicationType.internal ∨
    jobSample.applicationType = ApplicationType.external :=
  accepted_records_never_unknown cfgOnePage envInternalCard [] jobSample (by decide)

theorem login_empty_credentials_no_navigation_witness :
    loginToNaukri "" "secret" restSample = { result := false, navigations := [] } ∧
    (scrapeNaukriJobs cfgEmptyEmail envCardsEveryPage []).1 = false ∧
    1 ∈ (scrapeNaukriJobs cfgEmptyEmail envCardsEveryPage []).2.fetchedPages := by
  have h := login_empty_credentials_no_navigation "" "secret" restSample (Or.inl rfl)
  exact ⟨h.1,
    (h.2 cfgEmptyEmail envCardsEveryPage [] rfl rfl rfl (by decide) (by decide)).1,
    (h.2 cfgEmptyEmail envCardsEveryPage [] rfl rfl rfl (by decide) (by decide)).2⟩

end NaukriScraper
